import Mathlib

/-!
Shallow embedding of `src/download_and_unzip_db.py`
(digitalpalidictionary/tipitaka-translation-db).

The script resolves the latest GitHub release, finds the asset named
`tipitaka-translation-data.db.zip`, downloads it to a cache path unless that
file already exists, and extracts it with `zipfile.ZipFile.extractall`.

Modelling conventions:
- A filesystem is a partial map from paths (lists of components) to file
  contents (strings).  Directories are not tracked: the claims only speak
  about files.
- Network effects are an `Env` record: the outcome of the release-API GET
  (transport failure / non-2xx / malformed JSON collapse to `.error`, a parsed
  asset list to `.ok`), and, per URL, the outcome of the streamed download
  (an optional `Content-Length` header and the list of body chunks).
- Python exceptions become explicit error values; `pr.*` printing is ignored.
-/

set_option autoImplicit false

namespace TipitakaDb

/-- A filesystem path, as its list of components. -/
abbrev Path := List String

/-- A filesystem: file path to file content (`none` = no such file). -/
abbrev Fs := Path → Option String

/-- Write one file, overwriting any previous content at that path. -/
def writeFile (p : Path) (c : String) (fs : Fs) : Fs :=
  fun q => if q = p then some c else fs q

/-- One record of the release's `assets` array (line 30):
`{name, browser_download_url}`. -/
structure Asset where
  name : String
  browser_download_url : String
deriving DecidableEq

/-- The fixed asset name matched on line 31. -/
def assetName : String := "tipitaka-translation-data.db.zip"

/-- The `for asset in release_data.get("assets", [])` loop of lines 30-33:
first asset whose `name` equals `assetName` wins, the scan stops there. -/
def findZipAsset : List Asset → Option String
  | [] => none
  | a :: rest =>
    if a.name = assetName then some a.browser_download_url
    else findZipAsset rest

/-- The two failure shapes of `download_latest_release`: a network-layer
exception from `requests.get` / `raise_for_status` / `.json()` (lines 25-27),
or the `Exception("Could not find zip file in latest release")` raised on
line 36 when the scan found nothing.  Both are caught on line 40 and logged
with distinct messages; the caller receives `None`. -/
inductive ResolutionError
  | network
  | notFound
deriving DecidableEq

/-- `download_latest_release` (lines 15-42).  Its input is the outcome of the
release-API request: `.error` if the GET / status check / JSON parse raised,
`.ok assets` otherwise.  The returned `.error` value records which exception
was caught and logged on lines 40-41 (the Python function then returns
`None`; `ensure_zip_exists` treats both errors alike). -/
def download_latest_release (apiResult : Except Unit (List Asset)) :
    Except ResolutionError String :=
  match apiResult with
  | .error _ => .error .network
  | .ok assets =>
    match findZipAsset assets with
    | some url => .ok url
    | none => .error .notFound

/-- The network side of one run: the release-API outcome, and for each
download URL the download outcome — `.error` for a transport failure or a
non-2xx status (`requests.get` on line 62 / `raise_for_status` on line 63
raising), `.ok (contentLength?, chunks)` for a streamed body, where
`contentLength?` models the optional `content-length` header (line 65) and
`chunks` the values yielded by `response.iter_content` (line 76). -/
structure Env where
  release : Except Unit (List Asset)
  download : String → Except Unit (Option Nat × List String)

/-- Python string truthiness of a chunk: the `if chunk:` filter on line 77. -/
def keepChunk (c : String) : Bool :=
  decide (c ≠ "")

/-- The progress values reported by the download loop (lines 73-79): after each
non-empty chunk is written, `progress.update(task, advance=len(chunk))` moves
the completed count from `acc` to `acc + len(chunk)`; empty keep-alive chunks
are skipped.  The returned list is the sequence of completed-byte counts. -/
def writeChunks : List String → Nat → List Nat
  | [], _ => []
  | c :: rest, acc =>
    if keepChunk c then (acc + c.length) :: writeChunks rest (acc + c.length)
    else writeChunks rest acc

/-- The failure shapes of `ensure_zip_exists`: the
`Exception("Failed to get download URL")` raised on line 55 when
`download_latest_release` returned `None`, or the network-layer exception
from the download GET / status check, re-raised on line 85. -/
inductive PipelineErr
  | resolveFailed
  | fetchNetwork
deriving DecidableEq

/-- Everything observable about one `ensure_zip_exists` call: the filesystem
afterwards, the exception it raised (if any), how many times it invoked
`download_latest_release`, how many download GETs it issued, and the
progress values it reported. -/
structure RunResult where
  fs : Fs
  err : Option PipelineErr
  resolverCalls : Nat
  fetchCalls : Nat
  progress : List Nat

/-- `ensure_zip_exists` (lines 45-85).  If the tarball path already exists the
body is skipped entirely (line 49).  Otherwise the release is resolved; on
failure line 55 raises.  Then the download GET is issued; a transport failure
or non-2xx status raises on lines 62-63, before `mkdir` and before the file
is opened, so the filesystem is untouched.  On success the file is opened in
`"wb"` mode and the non-empty chunks are written in order, so its final
content is their concatenation. -/
def ensure_zip_exists (env : Env) (tarballPath : Path) (fs : Fs) : RunResult :=
  if (fs tarballPath).isSome then
    ⟨fs, none, 0, 0, []⟩
  else
    match download_latest_release env.release with
    | .error _ => ⟨fs, some .resolveFailed, 1, 0, []⟩
    | .ok url =>
      match env.download url with
      | .error _ => ⟨fs, some .fetchNetwork, 1, 1, []⟩
      | .ok (_, chunks) =>
        ⟨writeFile tarballPath (String.join (chunks.filter keepChunk)) fs,
         none, 1, 1, writeChunks chunks 0⟩

/-- One archive member: its stored filename and its file content. -/
structure ZEntry where
  filename : String
  content : String
deriving DecidableEq

/-- The path parts CPython's `zipfile._extract_member` drops when building the
target path: `('', os.path.curdir, os.path.pardir)`. -/
def invalidPart (s : String) : Bool :=
  s = "" || s = "." || s = ".."

/-- `str.split('/')` over the member filename, by structural recursion on the
character list (`acc` holds the current component reversed). -/
def splitSlash : List Char → List Char → List String
  | [], acc => [String.mk acc.reverse]
  | c :: rest, acc =>
    if c = '/' then String.mk acc.reverse :: splitSlash rest []
    else splitSlash rest (c :: acc)

/-- CPython `zipfile._extract_member` path sanitisation (POSIX: `splitdrive`
is the identity): split the member name on the separator and drop empty,
`.` and `..` components; the survivors are joined under the destination. -/
def sanitize (filename : String) : Path :=
  (splitSlash filename.data []).filter (fun s => !invalidPart s)

/-- Extraction of a single member: write its content at the destination
directory extended by the sanitised member path. -/
def extractMember (dest : Path) (e : ZEntry) (fs : Fs) : Fs :=
  writeFile (dest ++ sanitize e.filename) e.content fs

/-- `zip_ref.extractall(destination_dir)` (line 100): extract every member, in
archive order. -/
def extractall (dest : Path) (entries : List ZEntry) (fs : Fs) : Fs :=
  entries.foldl (fun s e => extractMember dest e s) fs

/-- The failure shapes of `unzip_file`: the `FileNotFoundError` raised on
line 95 when the zip path does not exist, or the `zipfile.BadZipFile` raised
by `ZipFile(zip_path, "r")` on line 99 when the file is not a parseable
archive.  (`extractall` itself raises nothing for traversal names: CPython
sanitises them.) -/
inductive ExtractErr
  | missingSource
  | corrupt
deriving DecidableEq

/-- `unzip_file` (lines 88-102).  `zipExists` is `zip_path.exists()`;
`parsed` is the member list if `ZipFile` can open the archive, `none` if it
raises `BadZipFile`.  Returns the filesystem afterwards and the exception
raised, if any: on either exception no member has been written. -/
def unzip_file (zipExists : Bool) (parsed : Option (List ZEntry))
    (destinationDir : Path) (fs : Fs) : Fs × Option ExtractErr :=
  if zipExists then
    match parsed with
    | some entries => (extractall destinationDir entries fs, none)
    | none => (fs, some .corrupt)
  else (fs, some .missingSource)

/-- Everything observable about one `main` run. -/
structure MainResult where
  fs : Fs
  failed : Bool
  resolverCalls : Nat
  fetchCalls : Nat
  extractAttempted : Bool
  progress : List Nat

/-- `main` (lines 105-125): `ensure_zip_exists`, then `unzip_file` on the
tarball path into the destination directory; any exception from either step
is caught on line 121 and reported (`failed := true`), and an exception from
`ensure_zip_exists` means `unzip_file` is never reached.  `parse` gives the
member list of a zip file content (`none` = not a valid archive). -/
def main (env : Env) (tarballPath destinationDir : Path)
    (parse : String → Option (List ZEntry)) (fs : Fs) : MainResult :=
  let r := ensure_zip_exists env tarballPath fs
  match r.err with
  | some _ => ⟨r.fs, true, r.resolverCalls, r.fetchCalls, false, r.progress⟩
  | none =>
    match unzip_file (r.fs tarballPath).isSome ((r.fs tarballPath).bind parse)
        destinationDir r.fs with
    | (fs2, none) => ⟨fs2, false, r.resolverCalls, r.fetchCalls, true, r.progress⟩
    | (fs2, some _) => ⟨fs2, true, r.resolverCalls, r.fetchCalls, true, r.progress⟩

/-- The empty filesystem. -/
def emptyFs : Fs := fun _ => none

/-! ### Helper lemmas about the asset scan -/

/-- The Boolean form of the name test on line 31. -/
def matchesAssetName (a : Asset) : Bool :=
  decide (a.name = assetName)

/-- The loop of lines 30-33 returns the download URL of the first asset whose
name matches, i.e. of the head of the filtered list. -/
lemma findZipAsset_eq_head_filter (l : List Asset) :
    findZipAsset l = ((l.filter matchesAssetName).head?).map
      (fun a => a.browser_download_url) := by
  induction l with
  | nil => rfl
  | cons b t ih =>
    by_cases hb : b.name = assetName <;>
      simp [findZipAsset, List.filter_cons, matchesAssetName, hb, ih]

/-- Cache hit (line 49): the whole body of `ensure_zip_exists` is skipped. -/
lemma ensure_zip_exists_cached (env : Env) (tp : Path) (fs : Fs)
    (h : (fs tp).isSome = true) :
    ensure_zip_exists env tp fs = ⟨fs, none, 0, 0, []⟩ := by
  simp [ensure_zip_exists, h]

/-- Cache miss, resolution ok, download GET fails (lines 62-63 raise): the
exception propagates from line 85 and nothing was written. -/
lemma ensure_zip_exists_fetch_error (env : Env) (tp : Path) (fs : Fs)
    (url : String) (h0 : fs tp = none)
    (h1 : download_latest_release env.release = .ok url)
    (h2 : env.download url = .error ()) :
    ensure_zip_exists env tp fs = ⟨fs, some .fetchNetwork, 1, 1, []⟩ := by
  simp [ensure_zip_exists, h0, h1, h2]

/-- Cache miss, resolution ok, download ok: the tarball is written as the
concatenation of the non-empty chunks and the progress values are the
running completed-byte counts. -/
lemma ensure_zip_exists_fetch_ok (env : Env) (tp : Path) (fs : Fs)
    (url : String) (cl : Option Nat) (chunks : List String)
    (h0 : fs tp = none)
    (h1 : download_latest_release env.release = .ok url)
    (h2 : env.download url = .ok (cl, chunks)) :
    ensure_zip_exists env tp fs =
      ⟨writeFile tp (String.join (chunks.filter keepChunk)) fs,
       none, 1, 1, writeChunks chunks 0⟩ := by
  simp [ensure_zip_exists, h0, h1, h2]

/-! ### Claims C3, C4, C10: the resolver -/

/-- **C3** — If the asset list contains no asset named `assetName`, the scan
finds nothing, `download_latest_release` fails with the not-found error
(line 36), and that error is distinct from the network error. -/
theorem resolve_no_match_notFound (l : List Asset)
    (h : l.filter matchesAssetName = []) :
    download_latest_release (.ok l) = .error .notFound ∧
    ResolutionError.notFound ≠ ResolutionError.network := by
  refine ⟨?_, by decide⟩
  simp [download_latest_release, findZipAsset_eq_head_filter, h]

/-- Witness for C3 at a one-asset list with a non-matching name. -/
theorem resolve_no_match_notFound_witness :
    ([Asset.mk "other-asset.zip" "u0"].filter matchesAssetName = []) ∧
    (download_latest_release (.ok [Asset.mk "other-asset.zip" "u0"]) =
        .error .notFound ∧
      ResolutionError.notFound ≠ ResolutionError.network) :=
  ⟨by decide, resolve_no_match_notFound _ (by decide)⟩

/-- **C4** — If exactly one asset matches the fixed name, the scan returns its
`browser_download_url`, and the result is the same for every permutation of
the asset list. -/
theorem resolve_unique_match (l l' : List Asset) (a : Asset)
    (h : l.filter matchesAssetName = [a]) (hp : l.Perm l') :
    download_latest_release (.ok l) = .ok a.browser_download_url ∧
    download_latest_release (.ok l') = .ok a.browser_download_url := by
  have h' : l'.filter matchesAssetName = [a] := by
    have hpf := hp.filter matchesAssetName
    rw [h] at hpf
    exact List.perm_singleton.mp hpf.symm
  constructor <;>
    simp [download_latest_release, findZipAsset_eq_head_filter, h, h']

/-- Witness for C4: a two-asset list with one match, and its transposition. -/
theorem resolve_unique_match_witness :
    ([Asset.mk "other-asset.zip" "u0", Asset.mk assetName "u1"].filter
        matchesAssetName = [Asset.mk assetName "u1"]) ∧
    (download_latest_release
        (.ok [Asset.mk "other-asset.zip" "u0", Asset.mk assetName "u1"]) =
        .ok "u1" ∧
      download_latest_release
        (.ok [Asset.mk assetName "u1", Asset.mk "other-asset.zip" "u0"]) =
        .ok "u1") :=
  ⟨by decide,
   resolve_unique_match _ _ (Asset.mk assetName "u1") (by decide) (by decide)⟩

/-- **C10** — With more than one matching asset, the loop of lines 30-33
breaks at the first match in list order and returns its URL. -/
theorem resolve_first_match_wins (l : List Asset) (a : Asset)
    (h1 : 1 < (l.filter matchesAssetName).length)
    (h2 : (l.filter matchesAssetName).head? = some a) :
    download_latest_release (.ok l) = .ok a.browser_download_url := by
  simp [download_latest_release, findZipAsset_eq_head_filter, h2]

/-- Witness for C10: two assets both carrying the fixed name; the first one's
URL is returned. -/
theorem resolve_first_match_wins_witness :
    (1 < ([Asset.mk assetName "u1", Asset.mk assetName "u2"].filter
        matchesAssetName).length) ∧
    download_latest_release
        (.ok [Asset.mk assetName "u1", Asset.mk assetName "u2"]) = .ok "u1" :=
  ⟨by decide,
   resolve_first_match_wins _ (Asset.mk assetName "u1") (by decide) (by decide)⟩

/-! ### Helper lemmas about the download loop's progress reports -/

/-- Each progress value is the previous completed count plus the written
chunk's length, so the whole report sequence is bounded below by the initial
count and non-decreasing. -/
lemma writeChunks_chain (l : List String) (acc : Nat) :
    List.Chain (· ≤ ·) acc (writeChunks l acc) := by
  induction l generalizing acc with
  | nil => exact List.Chain.nil
  | cons c rest ih =>
    by_cases h : keepChunk c
    · simp only [writeChunks, if_pos h]
      exact List.Chain.cons (Nat.le_add_right _ _) (ih _)
    · simp only [writeChunks, if_neg h]
      exact ih acc

/-- The last progress report equals the initial count plus the total number
of body bytes (empty keep-alive chunks contribute zero length). -/
lemma writeChunks_getLastD (l : List String) (acc : Nat) :
    (writeChunks l acc).getLastD acc = acc + (l.map String.length).sum := by
  induction l generalizing acc with
  | nil => simp [writeChunks]
  | cons c rest ih =>
    by_cases h : keepChunk c
    · simp only [writeChunks, if_pos h, List.getLastD_cons, ih, List.map_cons,
        List.sum_cons]
      omega
    · have hc : c = "" := by simpa [keepChunk] using h
      subst hc
      simp only [writeChunks, if_neg h, ih, List.map_cons, List.sum_cons]
      have hz : ("" : String).length = 0 := rfl
      rw [hz]
      omega

/-! ### Claims C2, C5, C8, C9: the pipeline -/

/-- **C2** — When the cache file already exists, a `main` run invokes neither
`download_latest_release` nor the download GET and goes straight to
`unzip_file`. -/
theorem cached_run_skips_resolver_and_fetch (env : Env)
    (tp dd : Path) (parse : String → Option (List ZEntry)) (fs : Fs)
    (h : (fs tp).isSome = true) :
    (main env tp dd parse fs).resolverCalls = 0 ∧
    (main env tp dd parse fs).fetchCalls = 0 ∧
    (main env tp dd parse fs).extractAttempted = true := by
  unfold main
  rw [ensure_zip_exists_cached env tp fs h]
  rcases hu : unzip_file (fs tp).isSome ((fs tp).bind parse) dd fs
    with ⟨fs2, e⟩
  cases e <;> simp [hu]

/-- Witness for C2: a filesystem holding the cache file, a parseable (empty)
archive, and an environment whose network always fails — the run still skips
both network steps and reaches extraction. -/
theorem cached_run_skips_resolver_and_fetch_witness :
    (((fun p => if p = ["cache.zip"] then some "Z" else none : Fs)
        ["cache.zip"]).isSome = true) ∧
    ((main ⟨.error (), fun _ => .error ()⟩ ["cache.zip"] ["dest"]
        (fun _ => some []) (fun p => if p = ["cache.zip"] then some "Z" else none)
        ).resolverCalls = 0 ∧
      (main ⟨.error (), fun _ => .error ()⟩ ["cache.zip"] ["dest"]
        (fun _ => some []) (fun p => if p = ["cache.zip"] then some "Z" else none)
        ).fetchCalls = 0 ∧
      (main ⟨.error (), fun _ => .error ()⟩ ["cache.zip"] ["dest"]
        (fun _ => some []) (fun p => if p = ["cache.zip"] then some "Z" else none)
        ).extractAttempted = true) :=
  ⟨rfl,
   cached_run_skips_resolver_and_fetch ⟨.error (), fun _ => .error ()⟩
     ["cache.zip"] ["dest"] (fun _ => some [])
     (fun p => if p = ["cache.zip"] then some "Z" else none) rfl⟩

/-- **C5** — Cache miss, resolution succeeded, but the download GET ends in a
transport failure or non-2xx status: `ensure_zip_exists` raises the network
error, and the filesystem — in particular the destination file — is exactly
as before: lines 62-63 raise before the file is opened on line 73. -/
theorem fetch_network_failure_writes_nothing (env : Env) (tp : Path)
    (fs : Fs) (url : String)
    (h0 : fs tp = none)
    (h1 : download_latest_release env.release = .ok url)
    (h2 : env.download url = .error ()) :
    (ensure_zip_exists env tp fs).err = some .fetchNetwork ∧
    (ensure_zip_exists env tp fs).fs = fs := by
  rw [ensure_zip_exists_fetch_error env tp fs url h0 h1 h2]
  exact ⟨rfl, rfl⟩

/-- Witness for C5: empty filesystem, one matching asset, download always
failing. -/
theorem fetch_network_failure_writes_nothing_witness :
    (emptyFs ["cache.zip"] = none) ∧
    (download_latest_release
        (Env.mk (.ok [Asset.mk assetName "u1"]) (fun _ => .error ())).release =
        .ok "u1") ∧
    ((Env.mk (.ok [Asset.mk assetName "u1"]) (fun _ => .error ())).download
        "u1" = .error ()) ∧
    ((ensure_zip_exists (Env.mk (.ok [Asset.mk assetName "u1"])
        (fun _ => .error ())) ["cache.zip"] emptyFs).err =
        some .fetchNetwork ∧
      (ensure_zip_exists (Env.mk (.ok [Asset.mk assetName "u1"])
        (fun _ => .error ())) ["cache.zip"] emptyFs).fs = emptyFs) :=
  ⟨rfl, rfl, rfl,
   fetch_network_failure_writes_nothing
     (Env.mk (.ok [Asset.mk assetName "u1"]) (fun _ => .error ()))
     ["cache.zip"] emptyFs "u1" rfl rfl rfl⟩

/-- **C8** — For a successful fetch, the sequence of completed-byte counts
reported per chunk is non-decreasing and its last value is the total number
of payload bytes. -/
theorem fetch_progress_monotone_and_total (env : Env) (tp : Path) (fs : Fs)
    (url : String) (cl : Option Nat) (chunks : List String)
    (h0 : fs tp = none)
    (h1 : download_latest_release env.release = .ok url)
    (h2 : env.download url = .ok (cl, chunks)) :
    List.Chain' (· ≤ ·) (ensure_zip_exists env tp fs).progress ∧
    ((ensure_zip_exists env tp fs).progress).getLastD 0 =
      (chunks.map String.length).sum := by
  rw [ensure_zip_exists_fetch_ok env tp fs url cl chunks h0 h1 h2]
  constructor
  · have hchain := writeChunks_chain chunks 0
    cases hw : writeChunks chunks 0 with
    | nil => exact List.chain'_nil
    | cons b t =>
      rw [hw] at hchain
      exact (List.chain_cons.mp hchain).2
  · simpa using writeChunks_getLastD chunks 0

/-- Witness for C8: a three-chunk body with an empty keep-alive chunk in the
middle; the reported sequence is `[2, 5]`. -/
theorem fetch_progress_monotone_and_total_witness :
    (emptyFs ["cache.zip"] = none) ∧
    (download_latest_release
        (Env.mk (.ok [Asset.mk assetName "u1"])
          (fun _ => .ok (some 5, ["ab", "", "cde"]))).release = .ok "u1") ∧
    ((Env.mk (.ok [Asset.mk assetName "u1"])
        (fun _ => .ok (some 5, ["ab", "", "cde"]))).download "u1" =
      .ok (some 5, ["ab", "", "cde"])) ∧
    (List.Chain' (· ≤ ·) (ensure_zip_exists
        (Env.mk (.ok [Asset.mk assetName "u1"])
          (fun _ => .ok (some 5, ["ab", "", "cde"])))
        ["cache.zip"] emptyFs).progress ∧
      ((ensure_zip_exists (Env.mk (.ok [Asset.mk assetName "u1"])
          (fun _ => .ok (some 5, ["ab", "", "cde"])))
          ["cache.zip"] emptyFs).progress).getLastD 0 =
        ((["ab", "", "cde"] : List String).map String.length).sum) :=
  ⟨rfl, rfl, rfl,
   fetch_progress_monotone_and_total
     (Env.mk (.ok [Asset.mk assetName "u1"])
       (fun _ => .ok (some 5, ["ab", "", "cde"])))
     ["cache.zip"] emptyFs "u1" (some 5) ["ab", "", "cde"] rfl rfl rfl⟩

/-- **C9** — If `ensure_zip_exists` raised (resolution or fetch failed, cache
absent), `main` reports failure and `unzip_file` is never called. -/
theorem pipeline_failure_aborts_extraction (env : Env) (tp dd : Path)
    (parse : String → Option (List ZEntry)) (fs : Fs) (e : PipelineErr)
    (h0 : fs tp = none)
    (h1 : (ensure_zip_exists env tp fs).err = some e) :
    (main env tp dd parse fs).failed = true ∧
    (main env tp dd parse fs).extractAttempted = false := by
  unfold main
  rcases hE : ensure_zip_exists env tp fs with ⟨fs1, err1, rc, fc, pg⟩
  rw [hE] at h1
  obtain rfl : err1 = some e := h1
  exact ⟨rfl, rfl⟩

/-- Witness for C9: the release-API request fails, so the run aborts before
extraction. -/
theorem pipeline_failure_aborts_extraction_witness :
    (emptyFs ["cache.zip"] = none) ∧
    ((ensure_zip_exists ⟨.error (), fun _ => .error ()⟩ ["cache.zip"]
        emptyFs).err = some .resolveFailed) ∧
    ((main ⟨.error (), fun _ => .error ()⟩ ["cache.zip"] ["dest"]
        (fun _ => some []) emptyFs).failed = true ∧
      (main ⟨.error (), fun _ => .error ()⟩ ["cache.zip"] ["dest"]
        (fun _ => some []) emptyFs).extractAttempted = false) :=
  ⟨rfl, rfl,
   pipeline_failure_aborts_extraction ⟨.error (), fun _ => .error ()⟩
     ["cache.zip"] ["dest"] (fun _ => some []) emptyFs .resolveFailed rfl rfl⟩

/-! ### Helper lemmas about extraction -/

/-- The last entry of the archive (in extraction order) whose target path is
`q`, if any: later members overwrite earlier ones at the same path. -/
def lastWrite (dest : Path) (entries : List ZEntry) (q : Path) : Option String :=
  match entries with
  | [] => none
  | e :: rest =>
    match lastWrite dest rest q with
    | some c => some c
    | none => if q = dest ++ sanitize e.filename then some e.content else none

/-- Pointwise description of `extractall`: at each path the extracted tree
holds the last member written there, and elsewhere the previous filesystem
shows through. -/
lemma extractall_apply (dest : Path) (entries : List ZEntry) (fs : Fs)
    (q : Path) :
    extractall dest entries fs q =
      match lastWrite dest entries q with
      | some c => some c
      | none => fs q := by
  induction entries generalizing fs with
  | nil => rfl
  | cons e rest ih =>
    simp only [extractall, List.foldl_cons] at *
    rw [ih]
    cases hl : lastWrite dest rest q with
    | some c => simp [lastWrite, hl]
    | none =>
      simp only [lastWrite, hl, extractMember, writeFile]
      by_cases hq : q = dest ++ sanitize e.filename <;> simp [hq]

/-- Extracting the same member list a second time changes nothing: every
target path already holds its last write. -/
lemma extractall_idem (dest : Path) (entries : List ZEntry) (fs : Fs) :
    extractall dest entries (extractall dest entries fs) =
      extractall dest entries fs := by
  funext q
  rw [extractall_apply, extractall_apply]
  cases lastWrite dest entries q <;> rfl

/-! ### Claims C1, C6, C7: the extractor -/

/-- The path-traversal archive of the safety claim: one member named
`../escape.txt`. -/
def escapeEntries : List ZEntry := [⟨"../escape.txt", "boom"⟩]

/-- **C1, as the code actually behaves** — extracting an archive whose only
member is named `../escape.txt` raises no error at all (there is no
`UnsafeEntry` rejection anywhere in `unzip_file`): CPython's `extractall`
silently drops the `..` component and writes `<dest>/escape.txt`.  No file
lands outside the destination, but the claimed rejection does not happen. -/
theorem traversal_entry_not_rejected :
    ((unzip_file true (some escapeEntries) ["dest"] emptyFs).2 = none) ∧
    ((unzip_file true (some escapeEntries) ["dest"] emptyFs).1
        ["dest", "escape.txt"] = some "boom") ∧
    ∀ q : Path, (unzip_file true (some escapeEntries) ["dest"] emptyFs).1 q
        = none ∨ q = ["dest", "escape.txt"] := by
  refine ⟨rfl, by decide, ?_⟩
  intro q
  have hs : sanitize "../escape.txt" = ["escape.txt"] := by decide
  by_cases h : q = ["dest", "escape.txt"]
  · right
    exact h
  · left
    simp [unzip_file, escapeEntries, extractall, extractMember, hs, writeFile,
      emptyFs, h]

/-- The two-member archive of the round-trip claim. -/
def roundTripEntries : List ZEntry :=
  [⟨"a/b.txt", "hello"⟩, ⟨"c.txt", "world"⟩]

/-- **C6** — extracting `{a/b.txt ↦ hello, c.txt ↦ world}` into an empty
destination yields exactly `<dest>/a/b.txt = hello` and
`<dest>/c.txt = world`, and no other file anywhere. -/
theorem extract_round_trip :
    ((unzip_file true (some roundTripEntries) ["dest"] emptyFs).1
        ["dest", "a", "b.txt"] = some "hello") ∧
    ((unzip_file true (some roundTripEntries) ["dest"] emptyFs).1
        ["dest", "c.txt"] = some "world") ∧
    ∀ q : Path, (unzip_file true (some roundTripEntries) ["dest"] emptyFs).1 q
        = none ∨ q = ["dest", "a", "b.txt"] ∨ q = ["dest", "c.txt"] := by
  refine ⟨by decide, by decide, ?_⟩
  intro q
  have hs1 : sanitize "a/b.txt" = ["a", "b.txt"] := by decide
  have hs2 : sanitize "c.txt" = ["c.txt"] := by decide
  by_cases h1 : q = ["dest", "a", "b.txt"]
  · right
    left
    exact h1
  · by_cases h2 : q = ["dest", "c.txt"]
    · right
      right
      exact h2
    · left
      simp [unzip_file, roundTripEntries, extractall, extractMember, hs1, hs2,
        writeFile, emptyFs, h1, h2]

/-- **C7** — running `unzip_file` a second time with the same archive and
destination leaves both the filesystem and the outcome exactly as after the
first run: members overwrite in place, and the failing cases (missing or
unparseable archive) change nothing to begin with. -/
theorem extract_twice_eq_once (zipExists : Bool)
    (parsed : Option (List ZEntry)) (dest : Path) (fs : Fs) :
    unzip_file zipExists parsed dest (unzip_file zipExists parsed dest fs).1 =
      unzip_file zipExists parsed dest fs := by
  cases zipExists with
  | false => rfl
  | true =>
    cases parsed with
    | none => rfl
    | some entries => simp [unzip_file, extractall_idem]

end TipitakaDb
